import Mathlib

/-!
Verification of the KuasaTurbo Phase 1α job governance substrate.

This file shallowly embeds the JavaScript source of the repository:
  - `src/guards/s7-guard.js`     (S7Guard: checkSubmission, checkRetry)
  - `src/validators/job-validator.js` (validateJobRequest)
  - `src/metrics/token-counter.js`    (TokenCounter.calculate, getCostCategory)
  - `src/index.js`               (submit / status / result / proof / retry
                                  handlers, isJobExpired, executeJobAsync
                                  state updates)
Times are modelled as natural numbers (milliseconds since epoch);
`new Date(a) > new Date(b)` becomes `b < a` on those numbers.  JavaScript
values occurring in request bodies are modelled by `JsValue`; bodies are
association lists keyed by field name (a JS object has at most one entry
per key).  Monetary arithmetic is modelled over `ℚ` (JS numbers are IEEE
doubles; the claims settled here do not depend on rounding error of
binary floats, only on exact-arithmetic behaviour such as which branch is
taken and whether a value is null).
-/

namespace KuasaTurbo

/-! ## JavaScript value model -/

/-- A JavaScript value as it can occur in a parsed request body
(multipart form fields are strings; JSON bodies may also carry numbers,
booleans, null and nested objects). -/
inductive JsValue where
  | str (s : String)
  | num (n : Int)
  | boolean (b : Bool)
  | null
  | obj (fields : List (String × JsValue))

/-- JS truthiness: `""`, `0`, `false`, `null`/`undefined` are falsy;
every object is truthy. -/
def jsTruthy : JsValue → Bool
  | .str s => s ≠ ""
  | .num n => n ≠ 0
  | .boolean b => b
  | .null => false
  | .obj _ => true

/-- A JS object (request body / submission object): association list of
named fields.  A key that is absent corresponds to `undefined`. -/
abbrev JsObj := List (String × JsValue)

/-- `o[k]`: `some v` when the field is present, `none` for `undefined`. -/
def lookupField (o : JsObj) (k : String) : Option JsValue :=
  (o.find? (fun p => p.1 == k)).map (fun p => p.2)

/-- JS `a || b` on two possibly-undefined values: the first when present
and truthy, otherwise the second. -/
def jsOr (a b : Option JsValue) : Option JsValue :=
  match a with
  | some v => if jsTruthy v then some v else b
  | none => b

/-- JS string coercion of a possibly-undefined value, as performed by a
template literal (`undefined` prints as "undefined"). -/
def jsDisplayOpt : Option JsValue → String
  | some (.str s) => s
  | some (.num n) => toString n
  | some (.boolean b) => if b then "true" else "false"
  | some .null => "null"
  | some (.obj _) => "[object Object]"
  | none => "undefined"

/-- JS strict equality `v === s` against a string: true exactly when `v`
is that string (a value of any other type is never strictly equal to a
string). -/
def jsIsStr (v : JsValue) (s : String) : Bool :=
  match v with
  | .str t => t == s
  | _ => false

/-! ## Case-insensitive substring machinery

The S7 guard's `contentPatterns` are case-insensitive regexes; except for
two of them they are plain literals, matched here by lower-casing both
sides and scanning for a substring occurrence. -/

/-- `charsStartWith pat l`: `pat` is an initial segment of `l`. -/
def charsStartWith : List Char → List Char → Bool
  | [], _ => true
  | _ :: _, [] => false
  | p :: ps, c :: cs => (p == c) && charsStartWith ps cs

/-- `charsContain pat l`: `pat` occurs contiguously somewhere in `l`. -/
def charsContain (pat : List Char) : List Char → Bool
  | [] => charsStartWith pat []
  | c :: cs => charsStartWith pat (c :: cs) || charsContain pat cs

/-- Case-insensitive substring test (regex `/lit/i` for a literal). -/
def subCI (needle hay : String) : Bool :=
  charsContain needle.toLower.data hay.toLower.data

/-- Drop a leading run of ASCII digits. -/
def dropDigits : List Char → List Char
  | c :: cs => if c.isDigit then dropDigits cs else c :: cs
  | [] => []

/-- Consume one-or-more leading digits (`\d+`); `none` when the list does
not start with a digit. -/
def digitsThen : List Char → Option (List Char)
  | c :: cs => if c.isDigit then some (dropDigits cs) else none
  | [] => none

/-- Match `/step \d+ of \d+/` at the head of an (already lower-cased)
character list. -/
def stepOfHere (l : List Char) : Bool :=
  charsStartWith "step ".data l &&
    match digitsThen (l.drop 5) with
    | some rest =>
        charsStartWith " of ".data rest &&
          (digitsThen (rest.drop 4)).isSome
    | none => false

/-- Match `/step \d+ of \d+/` anywhere in a character list. -/
def stepOfIn : List Char → Bool
  | [] => false
  | c :: cs => stepOfHere (c :: cs) || stepOfIn cs

/-! ## S7 Guard (`src/guards/s7-guard.js`) -/

namespace S7Guard

/-- `forbiddenPatterns.fieldNames`: field names that imply chaining. -/
def forbiddenFieldNames : List String :=
  ["previous_job_id", "depends_on", "parent_job", "triggered_by",
   "follows_from", "continuation_of", "chain_id", "workflow_id",
   "sequence_id", "step_number", "next_step", "previous_output",
   "last_result"]

/-- One entry of `forbiddenPatterns.contentPatterns`: the regex source
text and its matching function on free text. -/
structure ContentPattern where
  source : String
  test : String → Bool

/-- `forbiddenPatterns.contentPatterns`, in source order.  The regex
`/based on (?:your |the )?previous/i` is expanded into its three literal
alternatives; `/remember (?:that|when)/i` into its two; `/step \d+ of
\d+/i` is matched by the dedicated scanner; the rest are literals. -/
def contentPatternList : List ContentPattern :=
  [⟨"/based on (?:your |the )?previous/i",
      fun t => subCI "based on previous" t || subCI "based on your previous" t ||
        subCI "based on the previous" t⟩,
   ⟨"/as we discussed/i", fun t => subCI "as we discussed" t⟩,
   ⟨"/continuing from/i", fun t => subCI "continuing from" t⟩,
   ⟨"/following up on/i", fun t => subCI "following up on" t⟩,
   ⟨"/as mentioned before/i", fun t => subCI "as mentioned before" t⟩,
   ⟨"/remember (?:that|when)/i",
      fun t => subCI "remember that" t || subCI "remember when" t⟩,
   ⟨"/last time/i", fun t => subCI "last time" t⟩,
   ⟨"/in our previous/i", fun t => subCI "in our previous" t⟩,
   ⟨"/building on/i", fun t => subCI "building on" t⟩,
   ⟨"/step \\d+ of \\d+/i", fun t => stepOfIn t.toLower.data⟩,
   ⟨"/next step/i", fun t => subCI "next step" t⟩,
   ⟨"/workflow continues/i", fun t => subCI "workflow continues" t⟩]

/-- One recorded rule violation (`violations.push({...})` entries).  For
field violations `pat` is empty; for content violations `field` is
empty, mirroring which keys the source object carries. -/
structure RuleViolation where
  vtype : String
  field : String
  pat : String
  rule : String
deriving DecidableEq, Repr

/-- Result of `checkSubmission`: `allowed`, the first violation's rule as
`reason` (empty when allowed) and the collected violation list. -/
structure GuardDecision where
  allowed : Bool
  reason : String
  violations : List RuleViolation
deriving DecidableEq, Repr

/-- Check 1: explicit `references_previous` present and truthy. -/
def check1 (s : JsObj) : List RuleViolation :=
  match lookupField s "references_previous" with
  | some v =>
      if jsTruthy v then
        [⟨"EXPLICIT_REFERENCE", "references_previous", "",
          "Jobs cannot reference previous job outputs"⟩]
      else []
  | none => []

/-- Check 2: any forbidden field name present at all (any value). -/
def check2 (s : JsObj) : List RuleViolation :=
  forbiddenFieldNames.filterMap fun f =>
    if (lookupField s f).isSome then
      some ⟨"FORBIDDEN_FIELD", f, "",
        "Field " ++ f ++ " implies job chaining"⟩
    else none

/-- Check 3: forbidden field names nested inside a truthy `metadata`
object (indexing a non-object truthy value yields `undefined` for these
names, hence no violation). -/
def check3 (s : JsObj) : List RuleViolation :=
  match lookupField s "metadata" with
  | some m =>
      if jsTruthy m then
        match m with
        | .obj fields =>
            forbiddenFieldNames.filterMap fun f =>
              if (lookupField fields f).isSome then
                some ⟨"FORBIDDEN_METADATA_FIELD", "metadata." ++ f, "",
                  "Metadata field " ++ f ++ " implies job chaining"⟩
              else none
        | _ => []
      else []
  | none => []

/-- The free text examined by check 4: `prompt` and `instructions`
joined by a space (absent fields contribute the empty string). -/
def fieldText (s : JsObj) (k : String) : String :=
  match lookupField s k with
  | some (.str t) => t
  | _ => ""

/-- Check 4: continuity-implying phrases in `prompt`/`instructions`,
only performed when `prompt || instructions` is truthy. -/
def check4 (s : JsObj) : List RuleViolation :=
  let gate :=
    (match lookupField s "prompt" with
     | some v => jsTruthy v
     | none => false) ||
    (match lookupField s "instructions" with
     | some v => jsTruthy v
     | none => false)
  if gate then
    let text := fieldText s "prompt" ++ " " ++ fieldText s "instructions"
    contentPatternList.filterMap fun p =>
      if p.test text then
        some ⟨"CONTINUITY_LANGUAGE", "", p.source,
          "Content contains language implying continuity/memory"⟩
      else none
  else []

/-- `S7Guard.checkSubmission`: run the four checks in order, collect all
violations, reject (with the first violation's rule) when any exist. -/
def checkSubmission (s : JsObj) : GuardDecision :=
  match check1 s ++ check2 s ++ check3 s ++ check4 s with
  | [] => ⟨true, "", []⟩
  | v :: vs => ⟨false, "S7 Violation: " ++ v.rule, v :: vs⟩

/-- Result of `checkRetry`. -/
structure RetryDecision where
  allowed : Bool
  reason : String
deriving DecidableEq, Repr

/-- `S7Guard.checkRetry` on the original job's identity fields and a
retry-request body: same `job_id`, unchanged `idempotency_key` when one
is supplied, and no `additional_inputs` / `new_files`. -/
def checkRetry (origJobId origIdemKey : String) (rq : JsObj) : RetryDecision :=
  if !(match lookupField rq "job_id" with
       | some v => jsIsStr v origJobId
       | none => false) then
    ⟨false, "Retry must use same job_id (S7: no new job creation from retry)"⟩
  else if (match lookupField rq "idempotency_key" with
           | some v => jsTruthy v && !(jsIsStr v origIdemKey)
           | none => false) then
    ⟨false, "Retry must preserve idempotency_key (S7: no identity mutation)"⟩
  else if (match jsOr (lookupField rq "additional_inputs")
                 (lookupField rq "new_files") with
           | some v => jsTruthy v
           | none => false) then
    ⟨false, "Retry cannot add new inputs (S7: no input evolution)"⟩
  else ⟨true, ""⟩

end S7Guard

/-! ## Job validator (`src/validators/job-validator.js`) -/

/-- A multer file reference as stored on the job (`req.files`). -/
structure FileRef where
  fieldname : String
  originalname : String
  path : String
  size : Nat
  mimetype : String
deriving DecidableEq, Repr

def VALID_JOB_TYPES : List String := ["z4_format_transform"]

def VALID_TRANSFORM_TYPES : List String :=
  ["mortgage_eligibility_summary", "solar_proposal_draft"]

/-- Per-transform file constraints (`FILE_CONSTRAINTS`). -/
structure FileConstraints where
  required : List String
  optionalFields : List String
  maxFiles : Nat
  maxTotalSize : Nat
deriving DecidableEq, Repr

def FILE_CONSTRAINTS : String → Option FileConstraints
  | "mortgage_eligibility_summary" =>
      some ⟨["payslip"], ["ic_front", "bank_statement"], 3, 20 * 1024 * 1024⟩
  | "solar_proposal_draft" =>
      some ⟨["electricity_bill", "roof_photo"], ["location_info"], 3,
        15 * 1024 * 1024⟩
  | _ => none

/-- One `{ field, message }` validation error. -/
structure ValidationIssue where
  field : String
  message : String
deriving DecidableEq, Repr

/-- Result of `validateJobRequest`. -/
structure ValidationResult where
  valid : Bool
  errors : List ValidationIssue
deriving DecidableEq, Repr

/-- The request as `validateJobRequest` reads it: `job_type`,
`transform_type` (possibly-undefined strings; `""` is falsy) and the
uploaded files (`request.files || []` is modelled by the list itself). -/
structure ValidationRequest where
  job_type : Option String
  transform_type : Option String
  files : List FileRef
deriving Repr

/-- JS falsiness of a possibly-undefined string field. -/
def strFalsy : Option String → Bool
  | some s => s == ""
  | none => true

/-- `validateJobRequest`: job-type check, transform-type check, then (for
a valid transform type) file count, total size and required-file checks,
errors accumulated in source order. -/
def validateJobRequest (r : ValidationRequest) : ValidationResult :=
  let jobTypeErrors : List ValidationIssue :=
    if strFalsy r.job_type then
      [⟨"job_type", "Job type is required"⟩]
    else if !(VALID_JOB_TYPES.contains (r.job_type.getD "")) then
      [⟨"job_type", "Invalid job type. Allowed: " ++
        String.intercalate ", " VALID_JOB_TYPES⟩]
    else []
  let transformErrors : List ValidationIssue :=
    if strFalsy r.transform_type then
      [⟨"transform_type", "Transform type is required"⟩]
    else if !(VALID_TRANSFORM_TYPES.contains (r.transform_type.getD "")) then
      [⟨"transform_type", "Invalid transform type. Allowed: " ++
        String.intercalate ", " VALID_TRANSFORM_TYPES⟩]
    else []
  let fileErrors : List ValidationIssue :=
    if !(strFalsy r.transform_type) &&
        VALID_TRANSFORM_TYPES.contains (r.transform_type.getD "") then
      match FILE_CONSTRAINTS (r.transform_type.getD "") with
      | some constraints =>
          let files := r.files
          let countErrors :=
            if constraints.maxFiles < files.length then
              [⟨"files", "Too many files. Maximum: " ++
                toString constraints.maxFiles⟩]
            else []
          let totalSize := files.foldl (fun sum f => sum + f.size) 0
          let sizeErrors :=
            if constraints.maxTotalSize < totalSize then
              [⟨"files", "Total file size exceeds limit: " ++
                toString (constraints.maxTotalSize / (1024 * 1024)) ++ "MB"⟩]
            else []
          let fileNames := files.map (fun f => f.fieldname)
          let requiredErrors := constraints.required.filterMap fun req =>
            if !(fileNames.contains req) then
              some ⟨"files", "Required file missing: " ++ req⟩
            else none
          countErrors ++ sizeErrors ++ requiredErrors
      | none => []
    else []
  let errors := jobTypeErrors ++ transformErrors ++ fileErrors
  ⟨errors.isEmpty, errors⟩

/-! ## Token counter (`src/metrics/token-counter.js`) -/

namespace TokenCounter

/-- Pricing per 1M tokens: `(input, output)` USD rates. -/
def PRICING : List (String × ℚ × ℚ) :=
  [("claude-3-opus-20240229", (15, 75)),
   ("claude-3-sonnet-20240229", (3, 15)),
   ("claude-3-haiku-20240307", (1/4, 5/4)),
   ("claude-3-5-sonnet-20241022", (3, 15)),
   ("default", (3, 15))]

/-- `USD_TO_MYR`: exchange rate, default `4.65` (no env override in the
model). -/
def USD_TO_MYR : ℚ := 93 / 20

/-- JS `Math.round(num * 10^d) / 10^d` — half rounds toward `+∞`. -/
def jsRound (num : ℚ) (d : Nat) : ℚ :=
  (Int.floor (num * (10 : ℚ) ^ d + 1/2) : ℚ) / (10 : ℚ) ^ d

/-- `result.token_usage` as read by `calculate` (each numeric field is
read with `|| 0`, the model name with `|| 'default'`). -/
structure TokenUsage where
  model_used : Option String
  tokens_in : Option Nat
  tokens_out : Option Nat
deriving DecidableEq, Repr

/-- The execution result fields `calculate` consumes
(`result.token_usage || {}` and `result.execution_time_ms || 0`). -/
structure ExecResult where
  token_usage : Option TokenUsage
  execution_time_ms : Option Nat
deriving DecidableEq, Repr

structure Timing where
  execution_time_ms : Nat
  total_time_ms : Nat
deriving DecidableEq, Repr

structure Cost where
  input_cost_usd : ℚ
  output_cost_usd : ℚ
  total_cost_usd : ℚ
  total_cost_myr : ℚ
  exchange_rate_usd_myr : ℚ
  pricing_tier : String
deriving DecidableEq, Repr

structure Efficiency where
  tokens_per_second : Option ℚ
  cost_category : String
  relative_efficiency_score : Option ℚ
deriving DecidableEq, Repr

/-- The metrics object built by `TokenCounter.calculate`. -/
structure Metrics where
  tokens_in : Nat
  tokens_out : Nat
  total_tokens : Nat
  model_used : String
  timing : Timing
  cost : Cost
  efficiency : Efficiency
  disclaimer : String
  disclaimer_short : String
deriving DecidableEq, Repr

def disclaimerText : String :=
  "Token metrics are cost signals only. Lower cost does NOT mean higher quality or correctness."

/-- `getCostCategory`: bucket MYR cost into low / medium / heavy. -/
def getCostCategory (costMyr : ℚ) : String :=
  if costMyr < 1/2 then "low"
  else if costMyr < 2 then "medium"
  else "heavy"

/-- `TokenCounter.calculate`. -/
def calculate (result : ExecResult) : Metrics :=
  let tokenUsage := result.token_usage.getD ⟨none, none, none⟩
  let model :=
    match tokenUsage.model_used with
    | some s => if s == "" then "default" else s
    | none => "default"
  let pricing :=
    match (PRICING.find? (fun p => p.1 == model)).map (fun p => p.2) with
    | some pr => pr
    | none => (3, 15)
  let tokensIn := tokenUsage.tokens_in.getD 0
  let tokensOut := tokenUsage.tokens_out.getD 0
  let totalTokens := tokensIn + tokensOut
  let inputCostUsd : ℚ := ((tokensIn : ℚ) / 1000000) * pricing.1
  let outputCostUsd : ℚ := ((tokensOut : ℚ) / 1000000) * pricing.2
  let totalCostUsd := inputCostUsd + outputCostUsd
  let totalCostMyr := totalCostUsd * USD_TO_MYR
  let executionTimeMs := result.execution_time_ms.getD 0
  { tokens_in := tokensIn,
    tokens_out := tokensOut,
    total_tokens := totalTokens,
    model_used := model,
    timing := ⟨executionTimeMs, executionTimeMs⟩,
    cost :=
      { input_cost_usd := jsRound inputCostUsd 6,
        output_cost_usd := jsRound outputCostUsd 6,
        total_cost_usd := jsRound totalCostUsd 6,
        total_cost_myr := jsRound totalCostMyr 4,
        exchange_rate_usd_myr := USD_TO_MYR,
        pricing_tier := "standard" },
    efficiency :=
      { tokens_per_second :=
          if 0 < executionTimeMs then
            some (jsRound ((totalTokens : ℚ) / ((executionTimeMs : ℚ) / 1000)) 2)
          else none,
        cost_category := getCostCategory totalCostMyr,
        relative_efficiency_score :=
          if 0 < executionTimeMs then
            some (min 1 (5000 / (executionTimeMs : ℚ)))
          else none },
    disclaimer := disclaimerText,
    disclaimer_short := "Cost ≠ Quality" }

end TokenCounter

/-! ## Job lifecycle (`src/index.js`) -/

/-- Stored job status.  `expired` is deliberately absent: expiry is a
read-time view, never a stored status (see `statusRead`). -/
inductive JobStatus where
  | queued
  | processing
  | completed
  | failed
deriving DecidableEq, Repr

/-- The string the stored status renders to in responses. -/
def JobStatus.name : JobStatus → String
  | .queued => "queued"
  | .processing => "processing"
  | .completed => "completed"
  | .failed => "failed"

/-- An output artifact as attached by the executor (`result.outputs`).
The executor itself (`src/jobs/z4-executor.js`) is not part of the
claims; only the presence and identity of its outputs matter here. -/
structure Artifact where
  name : String
  path : String
deriving DecidableEq, Repr

/-- Modelled from the spec: the proof-pack generator
(`src/proof/generator.js`) is not among the source files; §4.3 describes
the proof pack as a derived, read-only record.  The claims settled here
depend only on whether a proof pack is present on the job and on when it
is exposed, so it is embedded as an opaque record with an identity
tag. -/
structure ProofPack where
  tag : String
deriving DecidableEq, Repr

/-- The structured error attached on failure (`{ code, message }`). -/
structure JobError where
  code : String
  message : String
deriving DecidableEq, Repr

/-- The `governance` sub-object created at submission. -/
structure GovernanceInfo where
  dry_run : Bool
  classification : String
  s7_checked : Bool
deriving DecidableEq, Repr

/-- The job record held in `jobStore`.  Times are Nat milliseconds;
fields that start out absent (`undefined`) are `Option`s. -/
structure Job where
  job_id : String
  tenant_id : String
  idempotency_key : String
  job_type : String
  transform_type : String
  status : JobStatus
  created_at : Nat
  expires_at : Nat
  ttl_seconds : Nat
  files : List FileRef
  retry_count : Nat
  progress : Nat
  governance : GovernanceInfo
  started_at : Option Nat
  completed_at : Option Nat
  duration_ms : Option Int
  outputs : Option (List Artifact)
  proof : Option ProofPack
  token_metrics : Option TokenCounter.Metrics
  error : Option JobError
deriving DecidableEq, Repr

/-- Server configuration (`CONFIG`): TTL in seconds, max retry count,
S7 enforcement toggle. -/
structure Config where
  ttlSeconds : Nat
  maxRetries : Nat
  s7Enabled : Bool
deriving DecidableEq, Repr

/-- The default `CONFIG` (no environment overrides): 24h TTL, 3 retries,
S7 enforcement on. -/
def defaultConfig : Config := ⟨86400, 3, true⟩

/-- `jobStore`: a `Map` from `job_id` to job, as an association list. -/
abbrev JobStore := List (String × Job)

/-- `jobStore.get(id)`. -/
def getJob (store : JobStore) (id : String) : Option Job :=
  (store.find? (fun p => p.1 == id)).map (fun p => p.2)

/-- `jobStore.set(id, j)`: overwrite the entry when present, else add. -/
def setJob (store : JobStore) (id : String) (j : Job) : JobStore :=
  if store.any (fun p => p.1 == id) then
    store.map (fun p => if p.1 == id then (id, j) else p)
  else (id, j) :: store

/-- `isJobExpired` (src/index.js:487): `new Date() > new Date(job.expires_at)`. -/
def isJobExpired (job : Job) (now : Nat) : Bool :=
  job.expires_at < now

/-! ### Submit handler (`POST /api/jobs/submit`) -/

/-- The handler's response classes: the two inline validation
rejections (HTTP 400), the S7 governance rejection (HTTP 403, body
carries `governance.blocked = true`), and acceptance (HTTP 202). -/
inductive SubmitOutcome where
  | invalidJobType
  | invalidTransformType
  | s7Violation (reason : String)
  | accepted (job_id : String) (expires_at : Nat)
deriving DecidableEq, Repr

/-- The submission object the handler passes to
`s7Guard.checkSubmission`: only `tenant_id`, `idempotency_key` and
`references_previous = req.body.previous_job_id || req.body.depends_on`.
No other body field reaches the guard. -/
def guardInput (body : JsObj) : JsObj :=
  (match lookupField body "tenant_id" with
   | some v => [("tenant_id", v)]
   | none => []) ++
  (match lookupField body "idempotency_key" with
   | some v => [("idempotency_key", v)]
   | none => []) ++
  (match jsOr (lookupField body "previous_job_id")
         (lookupField body "depends_on") with
   | some v => [("references_previous", v)]
   | none => [])

/-- `tenant_id || 'demo-tenant'` (coerced to the string the record
stores; multipart form fields are strings). -/
def tenantOf (body : JsObj) : String :=
  match lookupField body "tenant_id" with
  | some v => if jsTruthy v then jsDisplayOpt (some v) else "demo-tenant"
  | none => "demo-tenant"

/-- `idempotency_key || tenant_id-transform_type-date` where `dateStr`
stands for `now.toISOString().slice(0, 10)`. -/
def idemKeyOf (body : JsObj) (transform dateStr : String) : String :=
  match lookupField body "idempotency_key" with
  | some v =>
      if jsTruthy v then jsDisplayOpt (some v)
      else jsDisplayOpt (lookupField body "tenant_id") ++ "-" ++ transform ++
        "-" ++ dateStr
  | none =>
      jsDisplayOpt (lookupField body "tenant_id") ++ "-" ++ transform ++
        "-" ++ dateStr

/-- The `POST /api/jobs/submit` handler.  In order: inline job-type
check, inline transform-type check, S7 guard on the restricted
`guardInput`, then creation of a fresh `queued` job and an immediate 202
(execution is scheduled asynchronously and modelled by the separate
step functions below).  `newId` is the generated `uuidv4()`; `dateStr`
the date part of `now`.  Returns the response class and the resulting
store. -/
def submit (cfg : Config) (store : JobStore) (body : JsObj)
    (files : List FileRef) (now : Nat) (newId : String) (dateStr : String) :
    SubmitOutcome × JobStore :=
  if !(match lookupField body "job_type" with
       | some v => jsIsStr v "z4_format_transform"
       | none => false) then
    (.invalidJobType, store)
  else
    match lookupField body "transform_type" with
    | some (.str t) =>
        if !(VALID_TRANSFORM_TYPES.contains t) then
          (.invalidTransformType, store)
        else
          let s7Check := S7Guard.checkSubmission (guardInput body)
          if cfg.s7Enabled && !s7Check.allowed then
            (.s7Violation s7Check.reason, store)
          else
            let expires := now + cfg.ttlSeconds * 1000
            let job : Job :=
              { job_id := newId,
                tenant_id := tenantOf body,
                idempotency_key := idemKeyOf body t dateStr,
                job_type := "z4_format_transform",
                transform_type := t,
                status := .queued,
                created_at := now,
                expires_at := expires,
                ttl_seconds := cfg.ttlSeconds,
                files := files,
                retry_count := 0,
                progress := 0,
                governance :=
                  ⟨(match lookupField body "dry_run" with
                    | some v => jsIsStr v "true"
                    | none => false), "Z", true⟩,
                started_at := none,
                completed_at := none,
                duration_ms := none,
                outputs := none,
                proof := none,
                token_metrics := none,
                error := none }
            (.accepted newId expires, setJob store newId job)
    | _ => (.invalidTransformType, store)

/-! ### Status read (`GET /api/jobs/:job_id/status`) -/

/-- The status response body. -/
structure StatusView where
  job_id : String
  status : String
  progress : Nat
  created_at : Nat
  expires_at : Nat
  is_expired : Bool
  time_remaining_seconds : Nat
  error : Option JobError
deriving DecidableEq, Repr

/-- The status handler: 404 (`none`) for an unknown id, else a view in
which expiry is computed from the wall clock — the stored record is not
touched (the function does not return a store). -/
def statusRead (store : JobStore) (jid : String) (now : Nat) :
    Option StatusView :=
  match getJob store jid with
  | none => none
  | some job =>
      let expired := job.expires_at < now
      some
        { job_id := job.job_id,
          status := if expired then "expired" else job.status.name,
          progress := job.progress,
          created_at := job.created_at,
          expires_at := job.expires_at,
          is_expired := expired,
          time_remaining_seconds :=
            if expired then 0 else (job.expires_at - now) / 1000,
          error := job.error }

/-! ### Result read (`GET /api/jobs/:job_id/result`) -/

/-- The result handler's response classes: 404, the 410 expiry refusal,
the 400 not-completed refusal, and the success payload.  Only the `ok`
constructor carries outputs, proof or metrics. -/
inductive ResultView where
  | notFound
  | expired (expired_at : Nat)
  | notCompleted (status : String)
  | ok (job_id : String) (outputs : List Artifact) (proof : Option ProofPack)
      (token_metrics : Option TokenCounter.Metrics) (expires_at : Nat)
      (time_remaining_seconds : Nat) (promotion_eligible : Bool)
deriving DecidableEq, Repr

/-- The result handler: expiry is checked first, before the completed
check, so an expired job refuses with the expiry signal even when its
stored status is `completed`. -/
def resultRead (store : JobStore) (jid : String) (now : Nat) : ResultView :=
  match getJob store jid with
  | none => .notFound
  | some job =>
      if job.expires_at < now then .expired job.expires_at
      else if job.status ≠ .completed then .notCompleted job.status.name
      else
        .ok job.job_id (job.outputs.getD []) job.proof job.token_metrics
          job.expires_at ((job.expires_at - now) / 1000)
          (decide (job.status = .completed) && !(isJobExpired job now))

/-! ### Proof read (`GET /api/jobs/:job_id/proof`) -/

/-- The proof handler's response classes: 404, the 400
proof-not-available refusal, and the success payload. -/
inductive ProofView where
  | notFound
  | notAvailable (status : String)
  | ok (proof : ProofPack) (token_metrics : Option TokenCounter.Metrics)
      (expires_at : Nat) (promotion_eligible : Bool)
deriving DecidableEq, Repr

/-- The proof handler: it checks only that the job exists and carries a
proof pack.  The wall clock enters only the `promotion_eligible`
governance flag — there is no expiry refusal branch. -/
def proofRead (store : JobStore) (jid : String) (now : Nat) : ProofView :=
  match getJob store jid with
  | none => .notFound
  | some job =>
      match job.proof with
      | none => .notAvailable job.status.name
      | some p =>
          .ok p job.token_metrics job.expires_at
            (decide (job.status = .completed) && !(isJobExpired job now))

/-! ### Retry handler (`POST /api/jobs/:job_id/retry`) -/

/-- The retry handler's response classes: 404, the 400 retry-limit
rejection, and the 202 acceptance. -/
inductive RetryOutcome where
  | notFound
  | maxRetriesExceeded (retry_count : Nat)
  | accepted (job_id : String) (retry_count : Nat)
deriving DecidableEq, Repr

/-- The job record after the handler's reset block: back to `queued`,
`retry_count` incremented, `error`/`outputs`/`proof`/`token_metrics` set
to null (not merged), `expires_at` extended from `now`. -/
def resetForRetry (job : Job) (cfg : Config) (now : Nat) : Job :=
  { job with
    status := .queued,
    retry_count := job.retry_count + 1,
    error := none,
    outputs := none,
    proof := none,
    token_metrics := none,
    expires_at := now + cfg.ttlSeconds * 1000 }

/-- The `POST /api/jobs/:job_id/retry` handler.  `_body` is `req.body`:
the handler never reads it (in particular `s7Guard.checkRetry` is never
invoked), so the outcome is independent of the request body.  On
acceptance the stored job is reset in place and re-execution is
scheduled; `job_id` is never regenerated. -/
def retryJob (cfg : Config) (store : JobStore) (jid : String)
    (_body : JsObj) (now : Nat) : RetryOutcome × JobStore :=
  match getJob store jid with
  | none => (.notFound, store)
  | some job =>
      if cfg.maxRetries ≤ job.retry_count then
        (.maxRetriesExceeded job.retry_count, store)
      else
        let job' := resetForRetry job cfg now
        (.accepted job'.job_id job'.retry_count, setJob store jid job')

/-! ### Asynchronous execution steps (`executeJobAsync`) -/

/-- The status update at the start of `executeJobAsync`. -/
def startJob (job : Job) (now : Nat) : Job :=
  { job with status := .processing, started_at := some now }

/-- The success path of `executeJobAsync`: mark completed and attach the
execution outputs, proof pack and token metrics.  Note that `error` is
not written on this path — it holds whatever it held before. -/
def completeJob (job : Job) (now : Nat) (outputs : List Artifact)
    (proof : ProofPack) (metrics : TokenCounter.Metrics) : Job :=
  { job with
    status := .completed,
    completed_at := some now,
    duration_ms := some ((now : Int) - ((job.started_at.getD 0 : Nat) : Int)),
    outputs := some outputs,
    proof := some proof,
    token_metrics := some metrics,
    progress := 100 }

/-- The failure path of `executeJobAsync`: mark failed, attach the
structured error, and best-effort attach a proof pack (`none` models the
proof generation itself throwing, in which case the previous `proof`
value is kept). -/
def failJob (job : Job) (now : Nat) (err : JobError)
    (proofAttempt : Option ProofPack) : Job :=
  { job with
    status := .failed,
    completed_at := some now,
    error := some err,
    proof :=
      match proofAttempt with
      | some p => some p
      | none => job.proof }

/-- The elapsed milliseconds as `calculate` reads them
(`result.execution_time_ms || 0`). -/
def TokenCounter.execMs (r : TokenCounter.ExecResult) : Nat :=
  r.execution_time_ms.getD 0

/-- The total token count as `calculate` computes it
(`(tokens_in || 0) + (tokens_out || 0)`). -/
def TokenCounter.totalTok (r : TokenCounter.ExecResult) : Nat :=
  (r.token_usage.getD ⟨none, none, none⟩).tokens_in.getD 0 +
    (r.token_usage.getD ⟨none, none, none⟩).tokens_out.getD 0


/-! ## Concrete instances used by the claim theorems -/

/-- A job record with the fields the scenarios vary; everything else is
fixed at submission-shaped defaults. -/
def sampleJob (id key : String) (st : JobStatus) (rc exp : Nat)
    (pf : Option ProofPack) (outs : Option (List Artifact))
    (err : Option JobError) : Job :=
  { job_id := id,
    tenant_id := "demo-tenant",
    idempotency_key := key,
    job_type := "z4_format_transform",
    transform_type := "mortgage_eligibility_summary",
    status := st,
    created_at := 0,
    expires_at := exp,
    ttl_seconds := 86400,
    files := [],
    retry_count := rc,
    progress := 0,
    governance := ⟨false, "Z", true⟩,
    started_at := none,
    completed_at := none,
    duration_ms := none,
    outputs := outs,
    proof := pf,
    token_metrics := none,
    error := err }

/-- A submission body carrying the forbidden continuity field `chain_id`
alongside valid job and transform types. -/
def c1Body : JsObj :=
  [("job_type", .str "z4_format_transform"),
   ("transform_type", .str "mortgage_eligibility_summary"),
   ("chain_id", .str "wf-1")]

/-- An expired, completed job that still holds a proof pack. -/
def c2xJob : Job :=
  sampleJob "x2" "k2" .completed 0 1000 (some ⟨"x2-proof"⟩)
    (some [⟨"summary.md", "outputs/summary.md"⟩]) none

def c2xStore : JobStore := [("x2", c2xJob)]

def c2wJob : Job :=
  sampleJob "w2" "k2w" .completed 0 1000 (some ⟨"w2-proof"⟩) none none

def c2wStore : JobStore := [("w2", c2wJob)]

/-- A failed job eligible for retry under the default config. -/
def c3xJob : Job :=
  sampleJob "x3" "orig-key" .failed 0 999999 none none
    (some ⟨"EXECUTION_ERROR", "boom"⟩)

def c3xStore : JobStore := [("x3", c3xJob)]

/-- A retry request that the guard's `checkRetry` would reject twice
over: it swaps the idempotency key and adds new input material. -/
def c3xBody : JsObj :=
  [("job_id", .str "x3"),
   ("idempotency_key", .str "a-different-key"),
   ("additional_inputs", .str "one-more-document")]

def c3wJob : Job := sampleJob "w3" "w3-key" .failed 0 999999 none none none

def c3wStore : JobStore := [("w3", c3wJob)]

/-- A failed job with leftovers from the failed attempt. -/
def c4Job : Job :=
  sampleJob "w4" "k4" .failed 0 2000 (some ⟨"w4-proof"⟩)
    (some [⟨"draft.md", "outputs/draft.md"⟩])
    (some ⟨"EXECUTION_ERROR", "model call failed"⟩)

def c4Store : JobStore := [("w4", c4Job)]

def c5Job : Job := sampleJob "w5" "k5" .completed 1 3000 none none none

def c5Store : JobStore := [("w5", c5Job)]

/-- A job whose retry count has reached the default limit of 3. -/
def c6Job : Job :=
  sampleJob "w6" "k6" .failed 3 4000 none none
    (some ⟨"EXECUTION_ERROR", "still failing"⟩)

def c6Store : JobStore := [("w6", c6Job)]

/-- A syntactically valid submission body with no files attached (the
`mortgage_eligibility_summary` constraints require a `payslip` file). -/
def c7Body : JsObj :=
  [("job_type", .str "z4_format_transform"),
   ("transform_type", .str "mortgage_eligibility_summary")]

/-- A submission body with a valid job type but an unknown transform
type. -/
def c7wBody : JsObj :=
  [("job_type", .str "z4_format_transform"),
   ("transform_type", .str "pdf_summary")]

/-- A submission body with an unknown job type. -/
def c7xBody : JsObj :=
  [("job_type", .str "batch_transform"),
   ("transform_type", .str "mortgage_eligibility_summary")]

def c8Job : Job := sampleJob "w8" "k8" .completed 0 5000 none none none

def c8Store : JobStore := [("w8", c8Job)]

/-- An execution result: 1000 + 500 tokens in 2000 ms. -/
def c9Res : TokenCounter.ExecResult :=
  ⟨some ⟨some "claude-3-haiku-20240307", some 1000, some 500⟩, some 2000⟩

/-- A job still mid-execution (`processing`) with one retry so far. -/
def c10Job : Job := sampleJob "w10" "k10" .processing 1 6000 none none none

def c10Store : JobStore := [("w10", c10Job)]

/-! ## Store lemmas -/

theorem find?_overwrite (store : JobStore) (id : String) (j : Job) :
    (store.map (fun p => if p.1 == id then (id, j) else p)).find?
      (fun p => p.1 == id) =
    if store.any (fun p => p.1 == id) then some (id, j) else none := by
  induction store with
  | nil => simp
  | cons hd tl ih =>
      by_cases h : (hd.1 == id) = true
      · rw [List.map_cons, if_pos h, List.any_cons, h]
        simp [List.find?_cons_of_pos]
      · have h' : (hd.1 == id) = false := by simpa using h
        rw [List.map_cons, if_neg (by simp [h']), List.any_cons, h',
          Bool.false_or]
        exact (List.find?_cons_of_neg _ (by simp [h'])).trans ih

theorem getJob_setJob (store : JobStore) (id : String) (j : Job) :
    getJob (setJob store id j) id = some j := by
  unfold getJob setJob
  by_cases h : store.any (fun p => p.1 == id)
  · rw [if_pos h, find?_overwrite, if_pos h]
    rfl
  · rw [if_neg h]
    simp [List.find?_cons]

/-- Overwriting an existing key leaves the key list unchanged. -/
theorem setJob_keys (store : JobStore) (id : String) (j : Job)
    (h : store.any (fun p => p.1 == id) = true) :
    (setJob store id j).map (fun p => p.1) = store.map (fun p => p.1) := by
  unfold setJob
  rw [if_pos h, List.map_map]
  refine List.map_congr_left fun p _ => ?_
  by_cases hp : (p.1 == id) = true
  · simp only [Function.comp, hp, if_true]
    exact (eq_of_beq hp).symm
  · simp [Function.comp, hp]

theorem any_of_getJob (store : JobStore) (id : String) (job : Job)
    (h : getJob store id = some job) :
    store.any (fun p => p.1 == id) = true := by
  induction store with
  | nil => simp [getJob] at h
  | cons hd tl ih =>
      by_cases hp : (hd.1 == id) = true
      · simp [hp]
      · have h' : (hd.1 == id) = false := by simpa using hp
        simp only [List.any_cons, h', Bool.false_or]
        apply ih
        simpa [getJob, List.find?_cons, h'] using h

/-! ## Claim theorems -/

/-- Claim C1 (code_bug): the claim says every submission containing any
forbidden continuity field (such as `chain_id`, regardless of value) is
rejected by the governance guard with no job created.  The guard's
`checkSubmission` does flag such a body — but the submit handler passes
the guard only `{tenant_id, idempotency_key, references_previous}`, so
`chain_id` never reaches it: the submission is accepted and a job is
created, leaving the forbidden-field, metadata and phrase checks dead at
the only call site.  This theorem evaluates the code at the failing
input: the guard itself rejects the body, yet the submit operation
accepts it and grows the job store. -/
theorem submit_forbidden_field_unchecked :
    (S7Guard.checkSubmission c1Body).allowed = false ∧
    (submit defaultConfig [] c1Body [] 0 "job-1" "2026-01-18").1 =
      .accepted "job-1" 86400000 ∧
    getJob (submit defaultConfig [] c1Body [] 0 "job-1" "2026-01-18").2
      "job-1" ≠ none := by
  refine ⟨by decide, by decide, by decide⟩

/-- Claim C2 (counterexample): the claim says that once `now >
expires_at` both the result read and the proof read refuse with an
expiry-specific signal and never return the stored proof pack.  For an
expired completed job holding a proof pack, the proof read returns the
proof pack (with metrics and only a false `promotion_eligible` flag)
instead of refusing. -/
theorem proof_read_after_expiry_cx :
    proofRead c2xStore "x2" 5000 = .ok ⟨"x2-proof"⟩ none 1000 false := by
  decide

/-- Claim C2 (amended): once `now > expires_at`, the result read refuses
with the expiry-specific signal and never returns outputs, proof or
metrics, even when the stored status is `completed`; the proof read,
however, performs no expiry check — whenever a proof pack is stored it
is returned regardless of expiry, with only the `promotion_eligible`
governance flag reporting `false`. -/
theorem expiry_read_behaviour :
    ∀ (store : JobStore) (jid : String) (now : Nat) (job : Job),
    getJob store jid = some job → job.expires_at < now →
    resultRead store jid now = .expired job.expires_at ∧
    (∀ p, job.proof = some p →
      proofRead store jid now = .ok p job.token_metrics job.expires_at false) ∧
    (job.proof = none →
      proofRead store jid now = .notAvailable job.status.name) := by
  intro store jid now job h hexp
  have hflag : (decide (job.status = .completed) && !(isJobExpired job now)) =
      false := by
    simp [isJobExpired, hexp]
  refine ⟨?_, ?_, ?_⟩
  · simp [resultRead, h, hexp]
  · intro p hp
    simp [proofRead, h, hp, hflag]
  · intro hp
    simp [proofRead, h, hp]

/-- Witness for the amended C2 theorem at a concrete expired job. -/
theorem expiry_read_behaviour_witness :
    resultRead c2wStore "w2" 9000 = .expired 1000 ∧
    proofRead c2wStore "w2" 9000 = .ok ⟨"w2-proof"⟩ none 1000 false := by
  have h := expiry_read_behaviour c2wStore "w2" 9000 c2wJob rfl (by decide)
  exact ⟨h.1, h.2.1 ⟨"w2-proof"⟩ rfl⟩

/-- Claim C3 (counterexample): the claim says the Continuity Guard's
retry check must pass before a retry proceeds, so a retry supplying a
different idempotency key or new input material is rejected and no
retry is performed.  On a retry-eligible job, a request that the guard's
own `checkRetry` rejects (different idempotency key, additional inputs)
is nevertheless accepted: the retry proceeds, resetting the job to
`queued` with its retry count incremented. -/
theorem retry_guard_not_invoked_cx :
    (S7Guard.checkRetry "x3" "orig-key" c3xBody).allowed = false ∧
    (retryJob defaultConfig c3xStore "x3" c3xBody 100).1 = .accepted "x3" 1 ∧
    (getJob (retryJob defaultConfig c3xStore "x3" c3xBody 100).2 "x3").map
      Job.status = some .queued := by
  refine ⟨by decide, by decide, by decide⟩

/-- Claim C3 (amended): the retry handler never invokes the guard's
retry check and never reads the request body at all, so a mismatched
idempotency key or additional input material in the request is ignored
rather than rejected; job identity cannot diverge because the retry
operates on the stored job under the path `job_id`; a retry is rejected
only when the job is unknown or the retry limit is reached. -/
theorem retry_request_body_ignored :
    ∀ (cfg : Config) (store : JobStore) (jid : String) (now : Nat)
      (b₁ b₂ : JsObj),
    retryJob cfg store jid b₁ now = retryJob cfg store jid b₂ now ∧
    (∀ job, getJob store jid = some job → job.retry_count < cfg.maxRetries →
      (retryJob cfg store jid b₁ now).1 =
        .accepted job.job_id (job.retry_count + 1)) := by
  intro cfg store jid now b₁ b₂
  refine ⟨rfl, ?_⟩
  intro job h hlt
  simp [retryJob, h, Nat.not_le.mpr hlt, resetForRetry]

/-- Witness for the amended C3 theorem: two different bodies, one of
them guard-offending, produce the same accepted retry. -/
theorem retry_request_body_ignored_witness :
    retryJob defaultConfig c3wStore "w3" c3xBody 50 =
      retryJob defaultConfig c3wStore "w3" [] 50 ∧
    (retryJob defaultConfig c3wStore "w3" c3xBody 50).1 = .accepted "w3" 1 := by
  have h := retry_request_body_ignored defaultConfig c3wStore "w3" 50 c3xBody []
  exact ⟨h.1, h.2 c3wJob rfl (by decide)⟩

/-- Claim C4 (confirmed): at the start of every permitted retry the
job's prior outputs, proof, token-usage metrics and error are set to
null (not merged), so nothing from the previous attempt carries over;
and after a failed attempt followed by a successful retry the record
holds no trace of the failed attempt's error (the completion path never
writes `error`, which the reset left null). -/
theorem retry_clears_prior_attempt :
    ∀ (cfg : Config) (store : JobStore) (jid : String) (body : JsObj)
      (now : Nat) (job : Job),
    getJob store jid = some job → job.retry_count < cfg.maxRetries →
    getJob (retryJob cfg store jid body now).2 jid =
      some (resetForRetry job cfg now) ∧
    (resetForRetry job cfg now).outputs = none ∧
    (resetForRetry job cfg now).proof = none ∧
    (resetForRetry job cfg now).token_metrics = none ∧
    (resetForRetry job cfg now).error = none ∧
    (∀ t₁ t₂ outs pf mets,
      (completeJob (startJob (resetForRetry job cfg now) t₁) t₂ outs pf
        mets).error = none) := by
  intro cfg store jid body now job h hlt
  refine ⟨?_, rfl, rfl, rfl, rfl, fun t₁ t₂ outs pf mets => rfl⟩
  simp only [retryJob, h, Nat.not_le.mpr hlt, if_neg (Nat.not_le.mpr hlt)]
  exact getJob_setJob store jid (resetForRetry job cfg now)

/-- Witness for C4 on a failed job with leftover outputs, proof and
error. -/
theorem retry_clears_prior_attempt_witness :
    getJob (retryJob defaultConfig c4Store "w4" [] 500).2 "w4" =
      some (resetForRetry c4Job defaultConfig 500) ∧
    (resetForRetry c4Job defaultConfig 500).error = none ∧
    (resetForRetry c4Job defaultConfig 500).outputs = none := by
  have h := retry_clears_prior_attempt defaultConfig c4Store "w4" [] 500 c4Job
    rfl (by decide)
  exact ⟨h.1, h.2.2.2.2.1, h.2.1⟩

/-- Claim C5 (confirmed): `job_id` and `idempotency_key` never change
after creation: a retry (accepted or rejected) neither alters them nor
creates a new job identity — the store's key list is unchanged and the
job stored under the id after the call carries the same `job_id` and
`idempotency_key` as before. -/
theorem retry_preserves_identity :
    ∀ (cfg : Config) (store : JobStore) (jid : String) (body : JsObj)
      (now : Nat) (job : Job),
    getJob store jid = some job →
    (retryJob cfg store jid body now).2.map (fun p => p.1) =
      store.map (fun p => p.1) ∧
    (∀ j', getJob (retryJob cfg store jid body now).2 jid = some j' →
      j'.job_id = job.job_id ∧ j'.idempotency_key = job.idempotency_key) := by
  intro cfg store jid body now job h
  by_cases hle : cfg.maxRetries ≤ job.retry_count
  · have hr : retryJob cfg store jid body now =
        (.maxRetriesExceeded job.retry_count, store) := by
      simp [retryJob, h, hle]
    rw [hr]
    refine ⟨rfl, fun j' hj' => ?_⟩
    have : j' = job := by
      have := h.symm.trans hj'
      exact (Option.some.injEq _ _ ▸ this).symm ▸ rfl
    rw [this]
    exact ⟨rfl, rfl⟩
  · have hr : (retryJob cfg store jid body now).2 =
        setJob store jid (resetForRetry job cfg now) := by
      simp [retryJob, h, hle]
    rw [hr]
    refine ⟨setJob_keys store jid _ (any_of_getJob store jid job h),
      fun j' hj' => ?_⟩
    rw [getJob_setJob] at hj'
    have : j' = resetForRetry job cfg now := by
      exact (Option.some.injEq _ _ ▸ hj').symm ▸ rfl
    rw [this]
    exact ⟨rfl, rfl⟩

/-- Witness for C5 on a concrete retry. -/
theorem retry_preserves_identity_witness :
    (retryJob defaultConfig c5Store "w5" [] 700).2.map (fun p => p.1) =
      c5Store.map (fun p => p.1) ∧
    (resetForRetry c5Job defaultConfig 700).job_id = c5Job.job_id ∧
    (resetForRetry c5Job defaultConfig 700).idempotency_key =
      c5Job.idempotency_key := by
  have h := retry_preserves_identity defaultConfig c5Store "w5" [] 700 c5Job
    rfl
  exact ⟨h.1, h.2 (resetForRetry c5Job defaultConfig 700) (by decide)⟩

/-- Claim C6 (confirmed): once `retry_count` has reached `max_retries`,
a further retry call is rejected with the retry-limit signal and the
whole store — in particular every field of the job record — is exactly
what it was before the call. -/
theorem retry_limit_rejection_unchanged :
    ∀ (cfg : Config) (store : JobStore) (jid : String) (body : JsObj)
      (now : Nat) (job : Job),
    getJob store jid = some job → cfg.maxRetries ≤ job.retry_count →
    retryJob cfg store jid body now =
      (.maxRetriesExceeded job.retry_count, store) := by
  intro cfg store jid body now job h hle
  simp [retryJob, h, hle]

/-- Witness for C6: the fourth retry of a thrice-retried job is refused
and the store is returned untouched. -/
theorem retry_limit_rejection_unchanged_witness :
    retryJob defaultConfig c6Store "w6" [] 800 =
      (.maxRetriesExceeded 3, c6Store) := by
  exact retry_limit_rejection_unchanged defaultConfig c6Store "w6" [] 800
    c6Job rfl (by decide)

/-- Claim C7 (counterexample): the claim says the file-count, total-size
and required-file constraints of the chosen transform type are enforced
before job creation.  A submission with valid job and transform types
but no files at all — `validateJobRequest` rejects it for the missing
required `payslip` — is accepted by the submit handler and a job is
created: the validator is never invoked on the submit path. -/
theorem submit_file_constraints_cx :
    (validateJobRequest
      ⟨some "z4_format_transform", some "mortgage_eligibility_summary",
        []⟩).valid = false ∧
    (submit defaultConfig [] c7Body [] 0 "job-7" "2026-01-18").1 =
      .accepted "job-7" 86400000 ∧
    getJob (submit defaultConfig [] c7Body [] 0 "job-7" "2026-01-18").2
      "job-7" ≠ none := by
  refine ⟨by decide, by decide, by decide⟩

/-- Claim C7 (amended): before job creation the handler validates only
the job type and the transform type, inline: a body whose `job_type` is
not the string `z4_format_transform` is rejected with the job-type
error, a body whose `transform_type` is not one of the known transform
strings is rejected with the transform-type error, and both rejections
leave the store unchanged (no job record is created); the file-count /
total-size / required-file constraints of `validateJobRequest` are not
enforced — the submit decision is entirely independent of the uploaded
files, and every rejection leaves the store unchanged. -/
theorem submit_shape_validation_scope :
    ∀ (cfg : Config) (store : JobStore) (body : JsObj)
      (files₁ files₂ : List FileRef) (now : Nat) (id ds : String),
    (submit cfg store body files₁ now id ds).1 =
      (submit cfg store body files₂ now id ds).1 ∧
    ((submit cfg store body files₁ now id ds).2 = store ∨
      (submit cfg store body files₁ now id ds).1 =
        .accepted id (now + cfg.ttlSeconds * 1000)) ∧
    ((match lookupField body "job_type" with
      | some v => jsIsStr v "z4_format_transform"
      | none => false) = false →
      submit cfg store body files₁ now id ds = (.invalidJobType, store)) ∧
    ((match lookupField body "job_type" with
      | some v => jsIsStr v "z4_format_transform"
      | none => false) = true →
      (match lookupField body "transform_type" with
       | some (.str t) => VALID_TRANSFORM_TYPES.contains t
       | _ => false) = false →
      submit cfg store body files₁ now id ds =
        (.invalidTransformType, store)) := by
  intro cfg store body files₁ files₂ now id ds
  refine ⟨?_, ?_, ?_, ?_⟩
  · simp only [submit]
    repeat' split
    all_goals rfl
  · simp only [submit]
    repeat' split
    all_goals first | exact Or.inl rfl | exact Or.inr rfl
  · intro h
    simp [submit, h]
  · intro h1 h2
    cases hl : lookupField body "transform_type" with
    | none => simp [submit, h1, hl]
    | some v =>
        cases v with
        | str t =>
            have ht : VALID_TRANSFORM_TYPES.contains t = false := by
              rw [hl] at h2
              exact h2
            have ht' : t ∉ VALID_TRANSFORM_TYPES := by simpa using ht
            simp [submit, h1, hl, ht']
        | num n => simp [submit, h1, hl]
        | boolean b => simp [submit, h1, hl]
        | null => simp [submit, h1, hl]
        | obj fields => simp [submit, h1, hl]

/-- Witness for the amended C7 theorem: an unknown transform type and an
unknown job type are each rejected with the matching error and an
unchanged (empty) store. -/
theorem submit_shape_validation_scope_witness :
    submit defaultConfig [] c7wBody [] 0 "job-7w" "2026-01-18" =
      (.invalidTransformType, []) ∧
    submit defaultConfig [] c7xBody [] 0 "job-7x" "2026-01-18" =
      (.invalidJobType, []) := by
  refine ⟨?_, ?_⟩
  · exact (submit_shape_validation_scope defaultConfig [] c7wBody [] [] 0
      "job-7w" "2026-01-18").2.2.2 (by decide) (by decide)
  · exact (submit_shape_validation_scope defaultConfig [] c7xBody [] [] 0
      "job-7x" "2026-01-18").2.2.1 (by decide)

/-- Claim C8 (confirmed): a status read derives expiry from the wall
clock: once `now > expires_at` it reports status `expired` with zero
time remaining regardless of the stored status, and otherwise reports
the stored status with the remaining seconds; the read returns a view
only — `statusRead` has no store in its result type, so the stored
`status` field is never overwritten by expiry. -/
theorem status_read_expiry_view :
    ∀ (store : JobStore) (jid : String) (now : Nat) (job : Job),
    getJob store jid = some job →
    (job.expires_at < now →
      statusRead store jid now = some
        ⟨job.job_id, "expired", job.progress, job.created_at,
          job.expires_at, true, 0, job.error⟩) ∧
    (¬ job.expires_at < now →
      statusRead store jid now = some
        ⟨job.job_id, job.status.name, job.progress, job.created_at,
          job.expires_at, false, (job.expires_at - now) / 1000,
          job.error⟩) := by
  intro store jid now job h
  constructor
  · intro hexp
    simp [statusRead, h, hexp]
  · intro hexp
    simp [statusRead, h, hexp]

/-- Witness for C8: an expired completed job reads as `expired` with
zero seconds remaining. -/
theorem status_read_expiry_view_witness :
    statusRead c8Store "w8" 99999 = some
      ⟨"w8", "expired", 0, 0, 5000, true, 0, none⟩ := by
  exact (status_read_expiry_view c8Store "w8" 99999 c8Job rfl).1 (by decide)

/-- Claim C9 (confirmed): the usage calculation yields a numeric
tokens-per-second value exactly when the elapsed execution time is
positive — equal to total tokens divided by elapsed seconds (i.e.
`total * 1000 / ms`, then rounded to two decimals) — and yields null
otherwise; a zero or missing elapsed time produces the null
"metric unavailable", and the computation is a total function, never a
division error. -/
theorem tokens_per_second_spec :
    ∀ r : TokenCounter.ExecResult,
    ((TokenCounter.calculate r).efficiency.tokens_per_second.isSome ↔
      0 < TokenCounter.execMs r) ∧
    (0 < TokenCounter.execMs r →
      (TokenCounter.calculate r).efficiency.tokens_per_second =
        some (TokenCounter.jsRound
          ((TokenCounter.totalTok r : ℚ) * 1000 /
            (TokenCounter.execMs r : ℚ)) 2)) ∧
    (TokenCounter.execMs r = 0 →
      (TokenCounter.calculate r).efficiency.tokens_per_second = none) := by
  intro r
  have key : (TokenCounter.calculate r).efficiency.tokens_per_second =
      if 0 < TokenCounter.execMs r then
        some (TokenCounter.jsRound
          ((TokenCounter.totalTok r : ℚ) /
            ((TokenCounter.execMs r : ℚ) / 1000)) 2)
      else none := rfl
  rw [key]
  by_cases h : 0 < TokenCounter.execMs r
  · rw [if_pos h]
    refine ⟨by simp [h], fun _ => ?_,
      fun h0 => absurd h0 (Nat.pos_iff_ne_zero.mp h)⟩
    rw [div_div_eq_mul_div]
  · rw [if_neg h]
    exact ⟨by simp [h], fun hpos => absurd hpos h, fun _ => rfl⟩

/-- Witness for C9: 1500 tokens in 2000 ms yield 750 tokens/second. -/
theorem tokens_per_second_spec_witness :
    (TokenCounter.calculate c9Res).efficiency.tokens_per_second =
      some (TokenCounter.jsRound
        ((TokenCounter.totalTok c9Res : ℚ) * 1000 /
          (TokenCounter.execMs c9Res : ℚ)) 2) := by
  exact (tokens_per_second_spec c9Res).2.1 (by decide)

/-- Claim C10 (confirmed): the retry handler imposes no precondition on
the job's status: any stored job with `retry_count < max_retries` is
accepted for retry — even while `queued` or `processing` — and reset to
`queued` with a new execution scheduled; a retry is rejected only when
the job is not found or the retry limit is reached. -/
theorem retry_no_status_precondition :
    (∀ (cfg : Config) (store : JobStore) (jid : String) (body : JsObj)
        (now : Nat) (job : Job),
      getJob store jid = some job → job.retry_count < cfg.maxRetries →
      (retryJob cfg store jid body now).1 =
        .accepted job.job_id (job.retry_count + 1) ∧
      getJob (retryJob cfg store jid body now).2 jid =
        some (resetForRetry job cfg now) ∧
      (resetForRetry job cfg now).status = .queued) ∧
    (∀ (cfg : Config) (store : JobStore) (jid : String) (body : JsObj)
        (now : Nat),
      ((retryJob cfg store jid body now).1 = .notFound ↔
        getJob store jid = none) ∧
      (∀ rc, (retryJob cfg store jid body now).1 = .maxRetriesExceeded rc →
        ∃ job, getJob store jid = some job ∧
          cfg.maxRetries ≤ job.retry_count)) := by
  constructor
  · intro cfg store jid body now job h hlt
    refine ⟨?_, ?_, rfl⟩
    · simp [retryJob, h, Nat.not_le.mpr hlt, resetForRetry]
    · simp only [retryJob, h, if_neg (Nat.not_le.mpr hlt)]
      exact getJob_setJob store jid (resetForRetry job cfg now)
  · intro cfg store jid body now
    cases hg : getJob store jid with
    | none => simp [retryJob, hg]
    | some job =>
        by_cases hle : cfg.maxRetries ≤ job.retry_count
        · exact ⟨by simp [retryJob, hg, hle],
            fun rc hrc => ⟨job, by simp [hg], hle⟩⟩
        · refine ⟨by simp [retryJob, hg, hle], fun rc hrc => ?_⟩
          simp [retryJob, hg, hle] at hrc

/-- Witness for C10: a `processing` job is accepted for retry and reset
to `queued`. -/
theorem retry_no_status_precondition_witness :
    (retryJob defaultConfig c10Store "w10" [] 900).1 = .accepted "w10" 2 ∧
    (resetForRetry c10Job defaultConfig 900).status = .queued := by
  have h := retry_no_status_precondition.1 defaultConfig c10Store "w10" []
    900 c10Job rfl (by decide)
  exact ⟨h.1, h.2.2⟩

end KuasaTurbo
